import Mathlib

/-!
Verification of the cricket-score-predictor data pipeline
(`merge_datasets.py`), shallowly embedded in Lean 4.

Tabular data is modelled as lists of records.  A pandas `datetime64`
value is modelled by the pair of its day number (days since the epoch,
the value is at midnight) and its calendar year, the two projections the
pipeline actually uses; missing numeric cells (`NaN`) are modelled by
`Option ℚ` with `none` for a missing value.  The weather service is
modelled by an oracle function from the request parameters to an
`UpstreamOutcome`.
-/

namespace Cricket

/-- One ball-by-ball row of `deliveries.csv`: the columns the pipeline
reads (`match_id`, `inning`, `total_runs`). -/
structure DeliveryEvent where
  match_id : Nat
  inning : Nat
  total_runs : Nat
  deriving DecidableEq, Repr

/-- One row of the derived inning-score table: summed runs per
(match, inning) group. -/
structure InningScore where
  match_id : Nat
  inning : Nat
  inning_score : Nat
  deriving DecidableEq, Repr

/-- Group key of a delivery row. -/
def DeliveryEvent.key (d : DeliveryEvent) : Nat × Nat :=
  (d.match_id, d.inning)

/-- Sum of the `total_runs` column over the rows of one
(match, inning) group. -/
def groupRuns (ds : List DeliveryEvent) (k : Nat × Nat) : Nat :=
  ((ds.filter (fun d => d.match_id = k.1 ∧ d.inning = k.2)).map
    DeliveryEvent.total_runs).sum

/-- Embedding of
`deliveries_df.groupby(['match_id', 'inning'])['total_runs'].sum().reset_index()`
(`merge_datasets.py` line 121): one output row per distinct
(match_id, inning) key occurring in the input, holding the sum of that
group's `total_runs` values. -/
def inning_scores (ds : List DeliveryEvent) : List InningScore :=
  ((ds.map DeliveryEvent.key).dedup).map
    (fun k => ⟨k.1, k.2, groupRuns ds k⟩)

/-- Embedding of the static dictionary `venue_mapping`
(`merge_datasets.py` lines 143-145), as an association list. -/
def venue_mapping : List (String × String) :=
  [("Rajiv Gandhi International Stadium, Uppal", "Rajiv Gandhi International Stadium"),
   ("M. Chinnaswamy Stadium", "M Chinnaswamy Stadium"),
   ("Holkar Cricket Stadium", "Holkar Cricket Stadium"),
   ("Maharashtra Cricket Association Stadium", "Maharashtra Cricket Association Stadium"),
   ("Wankhede Stadium", "Wankhede Stadium"),
   ("Feroz Shah Kotla Ground", "Feroz Shah Kotla Ground"),
   ("Eden Gardens", "Eden Gardens"),
   ("Punjab Cricket Association Stadium, Mohali", "IS Bindra Stadium"),
   ("Feroz Shah Kotla", "Feroz Shah Kotla Ground"),
   ("M. A. Chidambaram Stadium", "M. A. Chidambaram Stadium"),
   ("Sardar Patel Stadium, Motera", "Sardar Patel Stadium, Motera"),
   ("Himachal Pradesh Cricket Association Stadium", "Himachal Pradesh Cricket Association Stadium"),
   ("Subrata Roy Sahara Stadium", "Maharashtra Cricket Association Stadium"),
   ("JSCA International Stadium Complex", "JSCA International Stadium Complex"),
   ("Barabati Stadium", "Barabati Stadium"),
   ("Saurashtra Cricket Association Stadium", "Saurashtra Cricket Association Stadium"),
   ("Shaheed Veer Narayan Singh International Stadium", "Shaheed Veer Narayan Singh International Stadium"),
   ("Dr. Y.S. Rajasekhara Reddy ACA-VDCA Cricket Stadium", "Dr. Y.S. Rajasekhara Reddy ACA-VDCA Cricket Stadium"),
   ("ACA-VDCA Stadium", "Dr. Y.S. Rajasekhara Reddy ACA-VDCA Cricket Stadium"),
   ("M. Chinnaswamy Stadium, Bengaluru", "M Chinnaswamy Stadium"),
   ("Wankhede Stadium, Mumbai", "Wankhede Stadium"),
   ("Sheikh Zayed Stadium", "Sheikh Zayed Cricket Stadium")]

/-- Embedding of
`merged_df['venue'].map(venue_mapping).fillna(merged_df['venue'])`
(`merge_datasets.py` line 146), as a function on one venue string:
the mapped value when the string is a key of `venue_mapping`, the
string itself otherwise. -/
def normalizeVenue (s : String) : String :=
  match venue_mapping.find? (fun p => p.1 = s) with
  | some p => p.2
  | none => s

example : normalizeVenue "Feroz Shah Kotla" = "Feroz Shah Kotla Ground" := by decide

example : normalizeVenue "somewhere else" = "somewhere else" := by decide

/-- A parsed pandas datetime value, modelled by the two projections the
pipeline uses: its day number (days since the epoch; the value sits at
midnight of that day) and its calendar year (`.dt.year`). -/
structure Datetime where
  day : Int
  year : Int
  deriving DecidableEq, Repr

/-- One row of `matches.csv` restricted to the columns the core pipeline
reads: `id`, `date` (already parsed), `season`, `venue`. -/
structure MatchRow where
  id : Nat
  date : Datetime
  season : Nat
  venue : String
  deriving DecidableEq, Repr

/-- A row of the match table after the inner merge with the
inning-score table. -/
structure MergedRow where
  id : Nat
  date : Datetime
  season : Nat
  venue : String
  inning : Nat
  inning_score : Nat
  deriving DecidableEq, Repr

/-- Embedding of
`pd.merge(matches_df, inning_scores, left_on='id', right_on='match_id', how='inner')`
(`merge_datasets.py` line 124): each match row is paired with every
inning-score row whose `match_id` equals its `id`; matches with no
score rows are dropped. -/
def innerJoinMatches (ms : List MatchRow) (ss : List InningScore) : List MergedRow :=
  ms.flatMap (fun m =>
    (ss.filter (fun s => s.match_id = m.id)).map
      (fun s => ⟨m.id, m.date, m.season, m.venue, s.inning, s.inning_score⟩))

/-- Embedding of `drop_duplicates(subset=..., keep='first')`: keep a row
when its key has not been seen before it. -/
def dropDupRows {α β : Type} [DecidableEq β] (key : α → β) :
    List β → List α → List α
  | _, [] => []
  | seen, r :: rs =>
    if key r ∈ seen then dropDupRows key seen rs
    else r :: dropDupRows key (key r :: seen) rs

/-- The (venue, date) ascending comparison used by the sort.  Venues are
compared in the lexicographic string order (the order on `String` is by
definition the order on its character list), ties broken by the date. -/
def venueDateLE (a b : MergedRow) : Bool :=
  decide (a.venue.data < b.venue.data) ||
    (a.venue == b.venue && decide (a.date.day ≤ b.date.day))

/-- Embedding of `merged_df.sort_values(['venue', 'date'])`
(`merge_datasets.py` line 135): sort by venue, then date, ascending. -/
def sortByVenueDate (rows : List MergedRow) : List MergedRow :=
  rows.mergeSort venueDateLE

/-- Accumulator pass behind `groupby('venue')['date'].shift(1)`: for each
row, emit the date of the most recent earlier row with the same venue
(the association list maps each venue to the date of its latest row seen
so far). -/
def lastDatesAux (acc : List (String × Int)) : List MergedRow → List (Option Int)
  | [] => []
  | r :: rs => acc.lookup r.venue :: lastDatesAux ((r.venue, r.date.day) :: acc) rs

/-- Embedding of
`merged_df.groupby('venue')['date'].shift(1)`
(`merge_datasets.py` line 136): the `last_match_date` column, `none` on a
venue's first row. -/
def last_match_date (rows : List MergedRow) : List (Option Int) :=
  lastDatesAux [] rows

/-- Embedding of
`(merged_df['date'] - merged_df['last_match_date']).dt.days` followed by
`.fillna(365)` (`merge_datasets.py` lines 137-138): the
`Days Since Last Match` column. -/
def days_since_values (rows : List MergedRow) : List Int :=
  (rows.zip (last_match_date rows)).map
    (fun p => match p.2 with
      | some d => p.1.date.day - d
      | none => 365)

/-- Accumulator pass behind `groupby(['season', 'venue']).cumcount() + 1`:
the association list maps each (season, venue) key to the number of its
rows seen so far. -/
def cumcountAux (acc : List ((Nat × String) × Nat)) : List MergedRow → List Nat
  | [] => []
  | r :: rs =>
    let c := (acc.lookup (r.season, r.venue)).getD 0
    (c + 1) :: cumcountAux (((r.season, r.venue), c + 1) :: acc) rs

/-- Embedding of
`merged_df.groupby(['season', 'venue']).cumcount() + 1`
(`merge_datasets.py` line 139): the `Matches This Season` column. -/
def matches_this_season (rows : List MergedRow) : List Nat :=
  cumcountAux [] rows

/-- A merged row together with the two derived temporal feature
columns. -/
structure FeatRow where
  base : MergedRow
  days_since : Int
  season_count : Nat
  deriving DecidableEq, Repr

/-- Attach the `Days Since Last Match` and `Matches This Season` columns
to the (sorted) match table (`merge_datasets.py` lines 136-139). -/
def addTemporalFeatures (rows : List MergedRow) : List FeatRow :=
  (rows.zip ((days_since_values rows).zip (matches_this_season rows))).map
    (fun p => ⟨p.1, p.2.1, p.2.2⟩)

/-- Apply the Venue Normalizer to the venue column
(`merge_datasets.py` line 146). -/
def normalizeVenues (rows : List FeatRow) : List FeatRow :=
  rows.map (fun r => { r with base := { r.base with venue := normalizeVenue r.base.venue } })

/-- One row of the geo reference spreadsheet, restricted to the join key
and the coordinate columns used by the weather stage. -/
structure GeoRow where
  venue : String
  Year : Int
  Latitude : Option ℚ
  Longitude : Option ℚ
  deriving DecidableEq, Repr

/-- A match row after the static geo left join: the match part plus the
(possibly missing) coordinates. -/
structure GeoJoinedRow where
  base : FeatRow
  Latitude : Option ℚ
  Longitude : Option ℚ
  deriving DecidableEq, Repr

/-- Embedding of
`pd.merge(merged_df, geo_df[['venue', 'Year', 'Latitude', 'Longitude']], on=['venue', 'Year'], how='left')`
(`merge_datasets.py` line 150): each left row is paired with every geo
row matching its (venue, Year) key, or kept once with null coordinates
when no geo row matches. -/
def leftJoinGeo (rows : List FeatRow) (geo : List GeoRow) : List GeoJoinedRow :=
  rows.flatMap (fun r =>
    match geo.filter (fun g => g.venue = r.base.venue ∧ g.Year = r.base.date.year) with
    | [] => [⟨r, none, none⟩]
    | gs => gs.map (fun g => ⟨r, g.Latitude, g.Longitude⟩))

/-- The per-match weather record assembled by `get_historical_weather`
(`merge_datasets.py` lines 48-93); each field is `none` when missing. -/
structure WeatherRecord where
  match_temp : Option ℚ
  match_humidity : Option ℚ
  match_wind_speed : Option ℚ
  match_dew_point : Option ℚ
  deriving DecidableEq, Repr

/-- The first hourly block `data['hourly'][0]` of a weather API
response; each field models a key that may be absent from the JSON
object, read with `.get` (`merge_datasets.py` lines 69-76). -/
structure HourlyData where
  temp : Option ℚ
  humidity : Option ℚ
  wind_speed : Option ℚ
  dew_point : Option ℚ
  deriving DecidableEq, Repr

/-- Outcome of one upstream weather request, as distinguished by the
code: a timeout or connection failure, a 4xx/5xx status (rejected by
`raise_for_status`), or a decoded JSON payload whose `hourly` key may be
absent (`none`) or hold a (possibly empty) list of hourly blocks. -/
inductive UpstreamOutcome where
  | timeout
  | httpError (status : Nat)
  | payload (hourly : Option (List HourlyData))
  deriving DecidableEq, Repr

/-- A weather backend, modelled as an oracle from the request
parameters (latitude, longitude, UNIX timestamp) to the upstream
outcome. -/
def WeatherApi : Type :=
  Option ℚ → Option ℚ → Int → UpstreamOutcome

/-- The API-key constant as shipped in the source
(`merge_datasets.py` line 42), equal to the placeholder. -/
def OPENWEATHERMAP_API_KEY : String :=
  "YOUR_OPENWEATHERMAP_API_KEY"

/-- The fixed dummy record returned when the API key is the placeholder
(`merge_datasets.py` lines 48-53). -/
def dummyWeather : WeatherRecord :=
  ⟨some 31.5, some 45, some 15, some 12.5⟩

/-- The all-null record returned on a failed request
(`merge_datasets.py` lines 80-93). -/
def nullWeather : WeatherRecord :=
  ⟨none, none, none, none⟩

/-- Embedding of `get_historical_weather` (`merge_datasets.py` lines
25-93), parametrised by the configured API key and the upstream oracle.
The boolean records whether the network request was issued.  With the
placeholder key the dummy record is returned before any request; a
timeout/HTTP error, a payload without an `hourly` key, or an empty
hourly list resolve to the all-null record through the `except` arms;
otherwise the four fields are read from the first hourly block with
`.get`, `none` when absent. -/
def get_historical_weather (apiKey : String) (api : WeatherApi)
    (lat lon : Option ℚ) (dt : Int) : WeatherRecord × Bool :=
  if apiKey = "YOUR_OPENWEATHERMAP_API_KEY" then (dummyWeather, false)
  else
    match api lat lon dt with
    | .timeout => (nullWeather, true)
    | .httpError _ => (nullWeather, true)
    | .payload none => (nullWeather, true)
    | .payload (some []) => (nullWeather, true)
    | .payload (some (h :: _)) =>
      (⟨h.temp, h.humidity, h.wind_speed, h.dew_point⟩, true)

/-- Embedding of
`(unique_matches['date'] + pd.Timedelta(hours=18)).astype(int) // 10**9`
(`merge_datasets.py` line 160): the UNIX timestamp of 18:00 on the
match day. -/
def matchTimestamp (day : Int) : Int :=
  day * 86400 + 18 * 3600

/-- Embedding of
`df[['id', 'date', 'Latitude', 'Longitude']].drop_duplicates(subset=['id'])`
(`merge_datasets.py` line 156): one row per distinct match id, keeping
the first occurrence. -/
def unique_matches (rows : List GeoJoinedRow) : List GeoJoinedRow :=
  dropDupRows (fun r => r.base.base.id) [] rows

/-- Embedding of the per-match lookup loop (`merge_datasets.py` lines
163-172): one `(id, weather record, request-issued flag)` triple per
unique match, calling `get_historical_weather` with that match's
coordinates and timestamp. -/
def match_weather_list (apiKey : String) (api : WeatherApi)
    (rows : List GeoJoinedRow) : List (Nat × WeatherRecord × Bool) :=
  (unique_matches rows).map
    (fun u => (u.base.base.id,
      get_historical_weather apiKey api u.Latitude u.Longitude
        (matchTimestamp u.base.base.date.day)))

/-- One row of the final feature table, after the identifier and
leakage columns (and the helper `last_match_date` column) are dropped
(`merge_datasets.py` lines 183-184). -/
structure FinalRow where
  date : Datetime
  season : Nat
  venue : String
  inning : Nat
  inning_score : Nat
  days_since : Int
  season_count : Nat
  match_temp : Option ℚ
  match_humidity : Option ℚ
  match_wind_speed : Option ℚ
  match_dew_point : Option ℚ
  deriving DecidableEq, Repr

/-- Embedding of
`pd.merge(df.drop(columns=['Latitude', 'Longitude']), match_weather_df, on='id', how='left')`
(`merge_datasets.py` line 175): each row receives the weather record of
its match id (the weather table holds one row per id); a row whose id is
absent keeps null weather fields. -/
def leftJoinWeather (rows : List GeoJoinedRow)
    (ws : List (Nat × WeatherRecord × Bool)) : List FinalRow :=
  rows.map (fun r =>
    let w := ((ws.find? (fun p => p.1 = r.base.base.id)).map (fun p => p.2.1)).getD nullWeather
    ⟨r.base.base.date, r.base.base.season, r.base.base.venue, r.base.base.inning,
     r.base.base.inning_score, r.base.days_since, r.base.season_count,
     w.match_temp, w.match_humidity, w.match_wind_speed, w.match_dew_point⟩)

/-- Mean of a numeric column over its non-missing entries, `none` when
every entry is missing (pandas `.mean()` with default `skipna`). -/
def colMean (col : List (Option ℚ)) : Option ℚ :=
  let xs := col.filterMap id
  if xs.length = 0 then none else some (xs.sum / xs.length)

/-- One cell of `fillna(mean)`: a present value is kept, a missing value
is replaced by the column mean when that mean exists. -/
def fillWith (m : Option ℚ) (v : Option ℚ) : Option ℚ :=
  match v with
  | some x => some x
  | none => m

/-- Embedding of `col.fillna(col.mean())` for one numeric column
(`merge_datasets.py` line 188). -/
def fillna_mean (col : List (Option ℚ)) : List (Option ℚ) :=
  col.map (fillWith (colMean col))

/-- Embedding of
`final_df[numeric_cols] = final_df[numeric_cols].fillna(final_df[numeric_cols].mean())`
(`merge_datasets.py` lines 187-188) on the nullable numeric columns of
the final table. -/
def imputeNumeric (rows : List FinalRow) : List FinalRow :=
  let mt := colMean (rows.map (fun r => r.match_temp))
  let mh := colMean (rows.map (fun r => r.match_humidity))
  let mw := colMean (rows.map (fun r => r.match_wind_speed))
  let md := colMean (rows.map (fun r => r.match_dew_point))
  rows.map (fun r =>
    { r with
      match_temp := fillWith mt r.match_temp
      match_humidity := fillWith mh r.match_humidity
      match_wind_speed := fillWith mw r.match_wind_speed
      match_dew_point := fillWith md r.match_dew_point })

/-- The successful branch of `merge_datasets` (`merge_datasets.py` lines
119-194), composed from the stage embeddings in source order. -/
def pipeline (apiKey : String) (api : WeatherApi)
    (ds : List DeliveryEvent) (ms : List MatchRow) (geo : List GeoRow) : List FinalRow :=
  let scores := inning_scores ds
  let merged := innerJoinMatches ms scores
  let merged := dropDupRows (fun r => (r.id, r.inning)) [] merged
  let sorted := sortByVenueDate merged
  let feat := normalizeVenues (addTemporalFeatures sorted)
  let joined := leftJoinGeo feat geo
  let ws := match_weather_list apiKey api joined
  imputeNumeric (leftJoinWeather joined ws)

/-- Embedding of `merge_datasets` (`merge_datasets.py` lines 96-194).
File reading is modelled by oracle functions from a path to the parsed
table, `none` when the file cannot be located (a `FileNotFoundError`).
The reads are attempted in source order inside one `try`; the first
failure aborts with an error naming that file's path (the message printed
at line 116 interpolates the exception, which carries the path) and the
function returns `None` to the caller, modelled as `Except.error`. -/
def merge_datasets
    (readDeliveries : String → Option (List DeliveryEvent))
    (readMatches : String → Option (List MatchRow))
    (readGeo : String → Option (List GeoRow))
    (deliveries_path matches_path geo_data_path : String)
    (apiKey : String) (api : WeatherApi) : Except String (List FinalRow) :=
  match readDeliveries deliveries_path with
  | none => .error deliveries_path
  | some ds =>
    match readMatches matches_path with
    | none => .error matches_path
    | some ms =>
      match readGeo geo_data_path with
      | none => .error geo_data_path
      | some geo => .ok (pipeline apiKey api ds ms geo)

/-- Embedding of the `__main__` guard (`merge_datasets.py` lines
204-208): the dataset written by `to_csv`, which runs only when
`merge_datasets` returned a table (`if final_dataset is not None`);
`none` means nothing is written. -/
def savedOutput (result : Except String (List FinalRow)) : Option (List FinalRow) :=
  match result with
  | .ok t => some t
  | .error _ => none

/-! ## Theorems -/

/-- Counting rows of the aggregated table that carry a given key: over a
duplicate-free key list, the image table holds the key once when present
and never otherwise. -/
theorem keysFilterLength (ds : List DeliveryEvent) (m i : Nat) :
    ∀ l : List (Nat × Nat), l.Nodup →
      ((l.map (fun k => (⟨k.1, k.2, groupRuns ds k⟩ : InningScore))).filter
          (fun s => s.match_id = m ∧ s.inning = i)).length =
        if (m, i) ∈ l then 1 else 0
  | [], _ => by simp
  | k :: l, hl => by
    have hk : k ∉ l := (List.nodup_cons.1 hl).1
    have ih := keysFilterLength ds m i l (List.nodup_cons.1 hl).2
    by_cases hkm : k = (m, i)
    · subst hkm
      have hnot : ¬ ((m, i) ∈ l) := hk
      rw [if_neg hnot] at ih
      rw [List.map_cons, List.filter_cons_of_pos (by simp), List.length_cons, ih,
        if_pos (List.mem_cons_self _ _)]
    · have hpred : ¬ (k.1 = m ∧ k.2 = i) := by
        intro hc
        exact hkm (Prod.ext hc.1 hc.2)
      have hne : ¬ ((m, i) = k) := fun h => hkm h.symm
      rw [List.map_cons, List.filter_cons_of_neg (by simpa using hpred), ih]
      simp [List.mem_cons, hne]

/-- C1: for every delivery-event table, the Inning Aggregator emits
exactly one row per (match, inning) group present in the input — and no
row for a pair with no delivery rows — and each row's inning score is
the exact arithmetic sum of the `total_runs` values of the rows of its
group. -/
theorem inning_scores_spec (ds : List DeliveryEvent) (m i : Nat) :
    ((inning_scores ds).filter (fun s => s.match_id = m ∧ s.inning = i)).length =
      (if ∃ d ∈ ds, d.match_id = m ∧ d.inning = i then 1 else 0) ∧
    ∀ s ∈ inning_scores ds,
      s.inning_score =
        ((ds.filter (fun d => d.match_id = s.match_id ∧ d.inning = s.inning)).map
          DeliveryEvent.total_runs).sum := by
  constructor
  · rw [inning_scores, keysFilterLength ds m i _ (List.nodup_dedup _)]
    have hmem : ((m, i) ∈ (ds.map DeliveryEvent.key).dedup) ↔
        ∃ d ∈ ds, d.match_id = m ∧ d.inning = i := by
      rw [List.mem_dedup, List.mem_map]
      constructor
      · rintro ⟨d, hd, hkey⟩
        exact ⟨d, hd, congrArg Prod.fst hkey, congrArg Prod.snd hkey⟩
      · rintro ⟨d, hd, h1, h2⟩
        exact ⟨d, hd, by simp [DeliveryEvent.key, h1, h2]⟩
    by_cases hc : ∃ d ∈ ds, d.match_id = m ∧ d.inning = i
    · rw [if_pos (hmem.2 hc), if_pos hc]
    · rw [if_neg (fun h => hc (hmem.1 h)), if_neg hc]
  · intro s hs
    rw [inning_scores] at hs
    rcases List.mem_map.1 hs with ⟨k, hk, rfl⟩
    simp [groupRuns]

/-- Witness for C1 on a concrete three-delivery table with two groups. -/
theorem inning_scores_spec_witness :
    (⟨1, 1, 6⟩ : InningScore) ∈ inning_scores [⟨1, 1, 4⟩, ⟨1, 1, 2⟩, ⟨1, 2, 6⟩] ∧
    (⟨1, 1, 6⟩ : InningScore).inning_score =
      ((([⟨1, 1, 4⟩, ⟨1, 1, 2⟩, ⟨1, 2, 6⟩] : List DeliveryEvent).filter
          (fun d => d.match_id = (1 : Nat) ∧ d.inning = (1 : Nat))).map
        DeliveryEvent.total_runs).sum :=
  ⟨by decide,
   (inning_scores_spec [⟨1, 1, 4⟩, ⟨1, 1, 2⟩, ⟨1, 2, 6⟩] 1 1).2 ⟨1, 1, 6⟩ (by decide)⟩

/-- C2: the Venue Normalizer is idempotent, every value of the mapping
table is a fixed point, and a string that is not a key is returned
unchanged. -/
theorem normalizeVenue_idempotent :
    (∀ s, normalizeVenue (normalizeVenue s) = normalizeVenue s) ∧
    (∀ p ∈ venue_mapping, normalizeVenue p.2 = p.2) ∧
    (∀ s, (∀ p ∈ venue_mapping, p.1 ≠ s) → normalizeVenue s = s) := by
  have hfix : ∀ p ∈ venue_mapping, normalizeVenue p.2 = p.2 := by decide
  have hnone : ∀ s, (∀ p ∈ venue_mapping, p.1 ≠ s) → normalizeVenue s = s := by
    intro s h
    rcases hf : venue_mapping.find? (fun p => p.1 = s) with _ | p
    · simp [normalizeVenue, hf]
    · have hp : p.1 = s := by simpa using List.find?_some hf
      exact absurd hp (h p (List.mem_of_find?_eq_some hf))
  refine ⟨?_, hfix, hnone⟩
  intro s
  rcases hf : venue_mapping.find? (fun p => p.1 = s) with _ | p
  · have hs : normalizeVenue s = s := by simp [normalizeVenue, hf]
    rw [hs]
    exact hs
  · have hs : normalizeVenue s = p.2 := by simp [normalizeVenue, hf]
    rw [hs]
    exact hfix p (List.mem_of_find?_eq_some hf)

/-- The shifted-date column has one entry per row. -/
theorem lastDatesAux_length (rows : List MergedRow) :
    ∀ acc, (lastDatesAux acc rows).length = rows.length := by
  induction rows with
  | nil => intro acc; rfl
  | cons r rs ih => intro acc; simp [lastDatesAux, ih]

/-- The `last_match_date` column has one entry per row. -/
theorem last_match_date_length (rows : List MergedRow) :
    (last_match_date rows).length = rows.length :=
  lastDatesAux_length rows []

/-- The `Days Since Last Match` column has one entry per row. -/
theorem days_since_values_length (rows : List MergedRow) :
    (days_since_values rows).length = rows.length := by
  simp [days_since_values, List.length_zip, last_match_date_length]

/-- The shift-within-venue-group pass emits, at each index, the date of
the last earlier row with the same venue, falling back to the
accumulator entry for that venue on the venue's first row. -/
theorem lastDatesAux_getElem :
    ∀ (rows : List MergedRow) (acc : List (String × Int)) (i : Nat)
      (h : i < rows.length) (h2 : i < (lastDatesAux acc rows).length),
      (lastDatesAux acc rows).get ⟨i, h2⟩ =
        ((((rows.take i).reverse.find? (fun r => r.venue = rows[i].venue)).map
            (fun r => r.date.day)).or (acc.lookup rows[i].venue))
  | [], _, i, h, _ => absurd h (Nat.not_lt_zero i)
  | r :: rs, acc, 0, h, h2 => by
    simp [lastDatesAux]
  | r :: rs, acc, i + 1, h, h2 => by
    have h' : i < rs.length := Nat.lt_of_succ_lt_succ h
    have h2a : i < (lastDatesAux ((r.venue, r.date.day) :: acc) rs).length := by
      rw [lastDatesAux_length]
      exact h'
    have ih := lastDatesAux_getElem rs ((r.venue, r.date.day) :: acc) i h' h2a
    show (lastDatesAux ((r.venue, r.date.day) :: acc) rs).get ⟨i, h2a⟩ = _
    rw [ih]
    simp only [List.getElem_cons_succ, List.take_succ_cons, List.reverse_cons,
      List.find?_append]
    by_cases hv : r.venue = rs[i].venue
    · have hb : (rs[i].venue == r.venue) = true := by simpa using hv.symm
      rcases hF : (rs.take i).reverse.find? (fun x => x.venue = rs[i].venue) with _ | x
      · simp [List.find?_cons, List.lookup_cons, hv, hb, hF]
      · simp [List.find?_cons, List.lookup_cons, hv, hb, hF]
    · have hb : (rs[i].venue == r.venue) = false := by simpa using Ne.symm hv
      rcases hF : (rs.take i).reverse.find? (fun x => x.venue = rs[i].venue) with _ | x
      · simp [List.find?_cons, List.lookup_cons, hv, hb, hF]
      · simp [List.find?_cons, List.lookup_cons, hv, hb, hF]

/-- C3: after the (venue, date) sort, each row's `Days Since Last Match`
value is the day difference between the row's date and the date of the
immediately preceding row at the same venue, and the sentinel 365 on a
venue's first occurrence. -/
theorem days_since_spec (rows : List MergedRow)
    (hsorted : rows.Sorted (fun a b => venueDateLE a b = true))
    (i : Nat) (h : i < rows.length) (h2 : i < (days_since_values rows).length) :
    (days_since_values rows).get ⟨i, h2⟩ =
      match (rows.take i).reverse.find? (fun r => r.venue = rows[i].venue) with
      | some prev => rows[i].date.day - prev.date.day
      | none => 365 := by
  have hl : i < (last_match_date rows).length := by
    rw [last_match_date_length]
    exact h
  have hacc := lastDatesAux_getElem rows [] i h hl
  simp only [days_since_values, List.get_eq_getElem, List.getElem_map, List.getElem_zip,
    last_match_date] at hacc ⊢
  rw [hacc]
  rcases hF : (rows.take i).reverse.find? (fun r => r.venue = rows[i].venue) with _ | prev
  · simp [hF, List.lookup]
  · simp [hF]

/-- Witness for C3: two matches at one venue on days 0 and 10 receive
the sentinel 365 and the gap 10. -/
theorem days_since_spec_witness :
    (days_since_values
        [⟨1, ⟨0, 2020⟩, 2020, "V", 1, 110⟩, ⟨2, ⟨10, 2020⟩, 2020, "V", 1, 95⟩]).get
      ⟨0, by decide⟩ = 365 ∧
    (days_since_values
        [⟨1, ⟨0, 2020⟩, 2020, "V", 1, 110⟩, ⟨2, ⟨10, 2020⟩, 2020, "V", 1, 95⟩]).get
      ⟨1, by decide⟩ = 10 :=
  ⟨(days_since_spec
      [⟨1, ⟨0, 2020⟩, 2020, "V", 1, 110⟩, ⟨2, ⟨10, 2020⟩, 2020, "V", 1, 95⟩]
      (by decide) 0 (by decide) (by decide)).trans (by decide),
   (days_since_spec
      [⟨1, ⟨0, 2020⟩, 2020, "V", 1, 110⟩, ⟨2, ⟨10, 2020⟩, 2020, "V", 1, 95⟩]
      (by decide) 1 (by decide) (by decide)).trans (by decide)⟩

/-- The `Matches This Season` column has one entry per row. -/
theorem cumcountAux_length (rows : List MergedRow) :
    ∀ acc, (cumcountAux acc rows).length = rows.length := by
  induction rows with
  | nil => intro acc; rfl
  | cons r rs ih => intro acc; simp [cumcountAux, ih]

/-- The cumulative-count pass emits, at each index, one more than the
count of earlier rows with the same (season, venue) key, offset by the
accumulator entry for that key. -/
theorem cumcountAux_getElem :
    ∀ (rows : List MergedRow) (acc : List ((Nat × String) × Nat)) (i : Nat)
      (h : i < rows.length) (h2 : i < (cumcountAux acc rows).length),
      (cumcountAux acc rows).get ⟨i, h2⟩ =
        (acc.lookup (rows[i].season, rows[i].venue)).getD 0 +
          (rows.take i).countP
            (fun r => r.season = rows[i].season ∧ r.venue = rows[i].venue) + 1
  | [], _, i, h, _ => absurd h (Nat.not_lt_zero i)
  | r :: rs, acc, 0, h, h2 => by
    simp [cumcountAux]
  | r :: rs, acc, i + 1, h, h2 => by
    have h' : i < rs.length := Nat.lt_of_succ_lt_succ h
    have h2a : i < (cumcountAux (((r.season, r.venue),
        (acc.lookup (r.season, r.venue)).getD 0 + 1) :: acc) rs).length := by
      rw [cumcountAux_length]
      exact h'
    have ih := cumcountAux_getElem rs (((r.season, r.venue),
      (acc.lookup (r.season, r.venue)).getD 0 + 1) :: acc) i h' h2a
    show (cumcountAux (((r.season, r.venue),
      (acc.lookup (r.season, r.venue)).getD 0 + 1) :: acc) rs).get ⟨i, h2a⟩ = _
    rw [ih]
    simp only [List.getElem_cons_succ, List.take_succ_cons, List.countP_cons]
    by_cases hv : r.season = rs[i].season ∧ r.venue = rs[i].venue
    · have hkey : (rs[i].season, rs[i].venue) = (r.season, r.venue) := by
        rw [hv.1, hv.2]
      simp only [List.lookup_cons, hkey, beq_self_eq_true]
      simp [hv]
      omega
    · have hkey : ¬ ((rs[i].season, rs[i].venue) = (r.season, r.venue)) := by
        intro hc
        exact hv ⟨(Prod.mk.injEq _ _ _ _ ▸ hc).1.symm, (Prod.mk.injEq _ _ _ _ ▸ hc).2.symm⟩
      simp only [List.lookup_cons]
      rw [show ((rs[i].season, rs[i].venue) == (r.season, r.venue)) = false by
        simpa using hkey]
      simp [hv]

/-- C4: after the (venue, date) sort, each row's `Matches This Season`
value is the 1-based running count of rows sharing its (season, venue)
pair up to and including the row itself. -/
theorem matches_this_season_spec (rows : List MergedRow)
    (hsorted : rows.Sorted (fun a b => venueDateLE a b = true))
    (i : Nat) (h : i < rows.length) (h2 : i < (matches_this_season rows).length) :
    (matches_this_season rows).get ⟨i, h2⟩ =
      (rows.take (i + 1)).countP
        (fun r => r.season = rows[i].season ∧ r.venue = rows[i].venue) := by
  have hacc := cumcountAux_getElem rows [] i h h2
  simp only [matches_this_season] at hacc ⊢
  rw [hacc]
  rw [← List.take_concat_get rows i h, List.concat_eq_append, List.countP_append]
  simp [List.lookup]

/-- Witness for C4: three matches sharing (season, venue) count 1, 2, 3
and a fourth match in another season restarts at 1. -/
theorem matches_this_season_spec_witness :
    (matches_this_season
        [⟨1, ⟨0, 2020⟩, 2020, "V", 1, 10⟩, ⟨2, ⟨1, 2020⟩, 2020, "V", 1, 20⟩,
         ⟨3, ⟨2, 2020⟩, 2020, "V", 1, 30⟩, ⟨4, ⟨3, 2021⟩, 2021, "V", 1, 40⟩]).get
      ⟨2, by decide⟩ = 3 ∧
    (matches_this_season
        [⟨1, ⟨0, 2020⟩, 2020, "V", 1, 10⟩, ⟨2, ⟨1, 2020⟩, 2020, "V", 1, 20⟩,
         ⟨3, ⟨2, 2020⟩, 2020, "V", 1, 30⟩, ⟨4, ⟨3, 2021⟩, 2021, "V", 1, 40⟩]).get
      ⟨3, by decide⟩ = 1 :=
  ⟨(matches_this_season_spec
      [⟨1, ⟨0, 2020⟩, 2020, "V", 1, 10⟩, ⟨2, ⟨1, 2020⟩, 2020, "V", 1, 20⟩,
       ⟨3, ⟨2, 2020⟩, 2020, "V", 1, 30⟩, ⟨4, ⟨3, 2021⟩, 2021, "V", 1, 40⟩]
      (by decide) 2 (by decide) (by decide)).trans (by decide),
   (matches_this_season_spec
      [⟨1, ⟨0, 2020⟩, 2020, "V", 1, 10⟩, ⟨2, ⟨1, 2020⟩, 2020, "V", 1, 20⟩,
       ⟨3, ⟨2, 2020⟩, 2020, "V", 1, 30⟩, ⟨4, ⟨3, 2021⟩, 2021, "V", 1, 40⟩]
      (by decide) 3 (by decide) (by decide)).trans (by decide)⟩

/-- C6: with the placeholder credential every weather lookup returns
exactly the constant record {31.5, 45, 15, 12.5}, whatever the
coordinates, timestamp and backend behaviour, and no network request is
issued. -/
theorem weather_placeholder_constant (apiKey : String) (api : WeatherApi)
    (lat lon : Option ℚ) (dt : Int)
    (h : apiKey = "YOUR_OPENWEATHERMAP_API_KEY") :
    get_historical_weather apiKey api lat lon dt =
      (⟨some 31.5, some 45, some 15, some 12.5⟩, false) := by
  subst h
  rfl

/-- Witness for C6 at concrete coordinates and a timing-out backend. -/
theorem weather_placeholder_constant_witness :
    get_historical_weather OPENWEATHERMAP_API_KEY
        (fun _ _ _ => UpstreamOutcome.timeout) (some 10) (some 76) 123456 =
      (⟨some 31.5, some 45, some 15, some 12.5⟩, false) :=
  weather_placeholder_constant OPENWEATHERMAP_API_KEY
    (fun _ _ _ => UpstreamOutcome.timeout) (some 10) (some 76) 123456 rfl

/-- Counterexample to C7 as stated: with a configured key, a response
whose first hourly block lacks the `temp` key yields a record that is
neither the constant fallback nor all-null — the missing field is null
while the present fields keep their values. -/
theorem weather_shape_counterexample :
    (get_historical_weather "configured-key"
        (fun _ _ _ => UpstreamOutcome.payload (some [⟨none, some 45, some 15, some 12.5⟩]))
        (some 13) (some 77) 0).1 ≠ dummyWeather ∧
    (get_historical_weather "configured-key"
        (fun _ _ _ => UpstreamOutcome.payload (some [⟨none, some 45, some 15, some 12.5⟩]))
        (some 13) (some 77) 0).1 ≠ nullWeather := by
  decide

/-- C7 (amended): the weather lookup is total — it never raises past its
boundary — and every outcome resolves to the constant fallback record,
the all-null record (timeouts, HTTP errors, responses without a
nonempty hourly block), or a record drawn field-by-field from the first
hourly block in which exactly the fields absent from the payload are
null. -/
theorem weather_never_raises (apiKey : String) (api : WeatherApi)
    (lat lon : Option ℚ) (dt : Int) :
    (get_historical_weather apiKey api lat lon dt).1 = dummyWeather ∨
    (get_historical_weather apiKey api lat lon dt).1 = nullWeather ∨
    ∃ hd rest, api lat lon dt = UpstreamOutcome.payload (some (hd :: rest)) ∧
      (get_historical_weather apiKey api lat lon dt).1 =
        ⟨hd.temp, hd.humidity, hd.wind_speed, hd.dew_point⟩ := by
  by_cases hk : apiKey = "YOUR_OPENWEATHERMAP_API_KEY"
  · left
    simp [get_historical_weather, hk]
  · rcases hapi : api lat lon dt with _ | st | ho
    · right; left
      simp [get_historical_weather, hk, hapi]
    · right; left
      simp [get_historical_weather, hk, hapi]
    · rcases ho with _ | hl
      · right; left
        simp [get_historical_weather, hk, hapi]
      · rcases hl with _ | ⟨hd, rest⟩
        · right; left
          simp [get_historical_weather, hk, hapi]
        · right; right
          exact ⟨hd, rest, rfl, by simp [get_historical_weather, hk, hapi]⟩

/-- Counterexample to C5 as stated: a match whose latitude and longitude
are both null receives, under the shipped (placeholder) configuration,
the constant dummy record — not a record with all four weather fields
null. -/
theorem weather_null_coords_counterexample :
    ((match_weather_list OPENWEATHERMAP_API_KEY (fun _ _ _ => UpstreamOutcome.timeout)
        [⟨⟨⟨1, ⟨0, 2020⟩, 2020, "V", 1, 100⟩, 365, 1⟩, none, none⟩]).map
      (fun p => p.2.1)) = [dummyWeather] ∧
    dummyWeather.match_temp ≠ none ∧ dummyWeather ≠ nullWeather :=
  ⟨rfl, by decide, by decide⟩

/-- C5 (amended): a null latitude/longitude is not special-cased — the
lookup runs for every unique match.  With the shipped placeholder
credential no request is issued and every match, null coordinates
included, receives the constant dummy record; with a configured
credential the request is issued even when a coordinate is null. -/
theorem weather_null_coords_amended (api : WeatherApi) (rows : List GeoJoinedRow) :
    (∀ entry ∈ match_weather_list OPENWEATHERMAP_API_KEY api rows,
      entry.2.1 = dummyWeather ∧ entry.2.2 = false) ∧
    (∀ apiKey, apiKey ≠ "YOUR_OPENWEATHERMAP_API_KEY" →
      ∀ entry ∈ match_weather_list apiKey api rows, entry.2.2 = true) := by
  constructor
  · intro entry hmem
    rcases List.mem_map.1 hmem with ⟨u, hu, rfl⟩
    exact ⟨rfl, rfl⟩
  · intro apiKey hk entry hmem
    rcases List.mem_map.1 hmem with ⟨u, hu, rfl⟩
    simp only [get_historical_weather, if_neg hk]
    rcases hapi : api u.Latitude u.Longitude (matchTimestamp u.base.base.date.day) with
      _ | st | (_ | (_ | ⟨hd, rest⟩)) <;> simp [hapi]

/-- Witness for C5 (amended) on one null-coordinate match, under the
placeholder key and under a configured key. -/
theorem weather_null_coords_amended_witness :
    (((1 : Nat), dummyWeather, false).2.1 = dummyWeather ∧
      ((1 : Nat), dummyWeather, false).2.2 = false) ∧
    ((1 : Nat), nullWeather, true).2.2 = true :=
  ⟨(weather_null_coords_amended (fun _ _ _ => UpstreamOutcome.timeout)
      [⟨⟨⟨1, ⟨0, 2020⟩, 2020, "V", 1, 100⟩, 365, 1⟩, none, none⟩]).1
    (1, dummyWeather, false) (List.mem_singleton.mpr rfl),
   (weather_null_coords_amended (fun _ _ _ => UpstreamOutcome.timeout)
      [⟨⟨⟨1, ⟨0, 2020⟩, 2020, "V", 1, 100⟩, 365, 1⟩, none, none⟩]).2
    "configured-key" (by decide) (1, nullWeather, true) (List.mem_singleton.mpr rfl)⟩

/-- C8: when a source file cannot be read, the pipeline aborts with an
error naming the first missing file, returns no table to the caller, and
nothing is written. -/
theorem merge_datasets_missing_input
    (readDeliveries : String → Option (List DeliveryEvent))
    (readMatches : String → Option (List MatchRow))
    (readGeo : String → Option (List GeoRow))
    (dp mp gp : String) (apiKey : String) (api : WeatherApi) :
    (readDeliveries dp = none →
      merge_datasets readDeliveries readMatches readGeo dp mp gp apiKey api =
        .error dp) ∧
    ((∃ ds, readDeliveries dp = some ds) → readMatches mp = none →
      merge_datasets readDeliveries readMatches readGeo dp mp gp apiKey api =
        .error mp) ∧
    ((∃ ds, readDeliveries dp = some ds) → (∃ ms, readMatches mp = some ms) →
      readGeo gp = none →
      merge_datasets readDeliveries readMatches readGeo dp mp gp apiKey api =
        .error gp) ∧
    (∀ e, merge_datasets readDeliveries readMatches readGeo dp mp gp apiKey api =
        .error e →
      savedOutput
        (merge_datasets readDeliveries readMatches readGeo dp mp gp apiKey api) =
        none) := by
  refine ⟨?_, ?_, ?_, ?_⟩
  · intro h
    simp [merge_datasets, h]
  · rintro ⟨ds, hd⟩ hm
    simp [merge_datasets, hd, hm]
  · rintro ⟨ds, hd⟩ ⟨ms, hm⟩ hg
    simp [merge_datasets, hd, hm, hg]
  · intro e he
    simp [savedOutput, he]

/-- Witness for C8: with the deliveries file unreadable, the run aborts
naming it and writes nothing. -/
theorem merge_datasets_missing_input_witness :
    merge_datasets (fun _ => none) (fun _ => some []) (fun _ => some [])
        "deliveries.csv" "matches.csv" "geo.xlsx" OPENWEATHERMAP_API_KEY
        (fun _ _ _ => UpstreamOutcome.timeout) = .error "deliveries.csv" ∧
    savedOutput
        (merge_datasets (fun _ => none) (fun _ => some []) (fun _ => some [])
          "deliveries.csv" "matches.csv" "geo.xlsx" OPENWEATHERMAP_API_KEY
          (fun _ _ _ => UpstreamOutcome.timeout)) = none :=
  ⟨(merge_datasets_missing_input (fun _ => none) (fun _ => some []) (fun _ => some [])
      "deliveries.csv" "matches.csv" "geo.xlsx" OPENWEATHERMAP_API_KEY
      (fun _ _ _ => UpstreamOutcome.timeout)).1 rfl,
   (merge_datasets_missing_input (fun _ => none) (fun _ => some []) (fun _ => some [])
      "deliveries.csv" "matches.csv" "geo.xlsx" OPENWEATHERMAP_API_KEY
      (fun _ _ _ => UpstreamOutcome.timeout)).2.2.2 "deliveries.csv"
    ((merge_datasets_missing_input (fun _ => none) (fun _ => some []) (fun _ => some [])
      "deliveries.csv" "matches.csv" "geo.xlsx" OPENWEATHERMAP_API_KEY
      (fun _ _ _ => UpstreamOutcome.timeout)).1 rfl)⟩

/-- C9: the static geo join keeps every left row — left-join semantics —
and a row whose (venue, Year) key matches no geo record appears in the
result with null latitude and longitude rather than being dropped. -/
theorem leftJoinGeo_left_semantics (rows : List FeatRow) (geo : List GeoRow)
    (r : FeatRow) (hr : r ∈ rows) :
    (∃ out ∈ leftJoinGeo rows geo, out.base = r) ∧
    (geo.filter (fun g => g.venue = r.base.venue ∧ g.Year = r.base.date.year) = [] →
      (⟨r, none, none⟩ : GeoJoinedRow) ∈ leftJoinGeo rows geo) := by
  constructor
  · rcases hF : geo.filter
        (fun g => g.venue = r.base.venue ∧ g.Year = r.base.date.year) with _ | ⟨g, gs⟩
    · refine ⟨⟨r, none, none⟩, List.mem_flatMap.2 ⟨r, hr, ?_⟩, rfl⟩
      simp only [Bool.decide_and] at hF
      simp [hF]
    · refine ⟨⟨r, g.Latitude, g.Longitude⟩, List.mem_flatMap.2 ⟨r, hr, ?_⟩, rfl⟩
      simp only [Bool.decide_and] at hF
      simp [hF]
  · intro hF
    refine List.mem_flatMap.2 ⟨r, hr, ?_⟩
    simp only [Bool.decide_and] at hF
    simp [hF]

/-- Witness for C9: a single match at a venue absent from the geo table
survives the join with null coordinates. -/
theorem leftJoinGeo_left_semantics_witness :
    (∃ out ∈ leftJoinGeo [⟨⟨1, ⟨0, 2020⟩, 2020, "Unknown Ground", 1, 100⟩, 365, 1⟩]
        [⟨"Eden Gardens", 2020, some 22, some 88⟩],
      out.base = ⟨⟨1, ⟨0, 2020⟩, 2020, "Unknown Ground", 1, 100⟩, 365, 1⟩) ∧
    (⟨⟨⟨1, ⟨0, 2020⟩, 2020, "Unknown Ground", 1, 100⟩, 365, 1⟩, none, none⟩ :
        GeoJoinedRow) ∈
      leftJoinGeo [⟨⟨1, ⟨0, 2020⟩, 2020, "Unknown Ground", 1, 100⟩, 365, 1⟩]
        [⟨"Eden Gardens", 2020, some 22, some 88⟩] :=
  ⟨(leftJoinGeo_left_semantics
      [⟨⟨1, ⟨0, 2020⟩, 2020, "Unknown Ground", 1, 100⟩, 365, 1⟩]
      [⟨"Eden Gardens", 2020, some 22, some 88⟩]
      ⟨⟨1, ⟨0, 2020⟩, 2020, "Unknown Ground", 1, 100⟩, 365, 1⟩
      (List.mem_singleton.mpr rfl)).1,
   (leftJoinGeo_left_semantics
      [⟨⟨1, ⟨0, 2020⟩, 2020, "Unknown Ground", 1, 100⟩, 365, 1⟩]
      [⟨"Eden Gardens", 2020, some 22, some 88⟩]
      ⟨⟨1, ⟨0, 2020⟩, 2020, "Unknown Ground", 1, 100⟩, 365, 1⟩
      (List.mem_singleton.mpr rfl)).2 rfl⟩

/-- C10: a numeric column whose entries are all missing is left
untouched by mean imputation — the mean over zero non-missing values is
undefined, so nothing is filled and every entry stays null — hence the
output table can still hold numeric nulls after imputation. -/
theorem impute_all_missing_column (col : List (Option ℚ))
    (hcol : ∀ v ∈ col, v = none) :
    fillna_mean col = col ∧
    (∀ v ∈ fillna_mean col, v = none) ∧
    (∀ rows : List FinalRow, (∀ r ∈ rows, r.match_temp = none) →
      ∀ r2 ∈ imputeNumeric rows, r2.match_temp = none) := by
  have hmean : ∀ c : List (Option ℚ), (∀ v ∈ c, v = none) → colMean c = none := by
    intro c hc
    have hnil : c.filterMap id = [] := List.filterMap_eq_nil_iff.mpr (by simpa using hc)
    simp [colMean, hnil]
  have hfill : ∀ v : Option ℚ, fillWith none v = v := by
    intro v
    cases v <;> rfl
  have hid : fillna_mean col = col := by
    rw [fillna_mean, hmean col hcol]
    have hfe : (fillWith none : Option ℚ → Option ℚ) = fun v => v := funext hfill
    rw [hfe, List.map_id']
  refine ⟨hid, ?_, ?_⟩
  · intro v hv
    rw [hid] at hv
    exact hcol v hv
  · intro rows hrows r2 hr2
    rcases List.mem_map.1 hr2 with ⟨r, hr, rfl⟩
    have htemp : colMean (rows.map (fun x => x.match_temp)) = none := by
      refine hmean _ ?_
      intro v hv
      rcases List.mem_map.1 hv with ⟨rr, hrr, rfl⟩
      exact hrows rr hrr
    simp [htemp, hfill, hrows r hr]

/-- Witness for C10: a two-entry all-null column is unchanged, and a
one-row table with an all-null temperature column keeps the null after
`imputeNumeric`. -/
theorem impute_all_missing_column_witness :
    fillna_mean [none, none] = [none, none] ∧
    (⟨⟨0, 2020⟩, 2020, "V", 1, 100, 365, 1, none, none, none, none⟩ :
      FinalRow).match_temp = none :=
  ⟨(impute_all_missing_column [none, none] (by decide)).1,
   (impute_all_missing_column [none, none] (by decide)).2.2
    [⟨⟨0, 2020⟩, 2020, "V", 1, 100, 365, 1, none, none, none, none⟩] (by decide)
    ⟨⟨0, 2020⟩, 2020, "V", 1, 100, 365, 1, none, none, none, none⟩
    (List.mem_singleton.mpr rfl)⟩

/-- Witness for C2 at a mapped key, a table entry, and an unmapped
string. -/
theorem normalizeVenue_idempotent_witness :
    normalizeVenue (normalizeVenue "M. Chinnaswamy Stadium") =
      normalizeVenue "M. Chinnaswamy Stadium" ∧
    normalizeVenue ("Feroz Shah Kotla", "Feroz Shah Kotla Ground").2 =
      ("Feroz Shah Kotla", "Feroz Shah Kotla Ground").2 ∧
    normalizeVenue "Narendra Modi Stadium" = "Narendra Modi Stadium" :=
  ⟨normalizeVenue_idempotent.1 "M. Chinnaswamy Stadium",
   normalizeVenue_idempotent.2.1 ("Feroz Shah Kotla", "Feroz Shah Kotla Ground") (by decide),
   normalizeVenue_idempotent.2.2 "Narendra Modi Stadium" (by decide)⟩

end Cricket
